import Mathlib

/-!
Verification of the symptom-analysis engine (`symptom_checker.py`) of the
Healthcare-Management-System repository.  The Python class `SymptomChecker`
is shallowly embedded: its static tables become Lean lists, its methods
become pure Lean functions, and Python float scores (sums of 0.5, which are
exact in binary floating point) are modelled by `ℚ`.
-/

namespace HealthSym

/-! ### String helpers modelling Python primitives -/

/-- Python `needle in hay` on strings: contiguous-substring test on the
character lists (the empty needle matches everything, as in Python). -/
def listContains : List Char → List Char → Bool
  | n, [] => n.isEmpty
  | n, c :: t => n.isPrefixOf (c :: t) || listContains n t

/-- Python `needle in hay` for `String`. -/
def strIn (needle hay : String) : Bool :=
  listContains needle.data hay.data

/-- Python `str.lower()`, modelled per character (all table phrases are
ASCII, where `Char.toLower` agrees with Python). -/
def pyLower (s : String) : String :=
  String.mk (s.data.map Char.toLower)

/-- Python `str.capitalize()`: first character upper-cased, the rest
lower-cased. -/
def pyCapitalize (s : String) : String :=
  match s.data with
  | [] => ""
  | c :: cs => String.mk (c.toUpper :: cs.map Char.toLower)

/-- Python `str.split()` with no argument: split on whitespace runs and
drop empty pieces. -/
def pySplit (s : String) : List String :=
  (s.split Char.isWhitespace).filter (fun t => t ≠ "")

/-- Python `' '.join(l)`. -/
def joinSpace (l : List String) : String :=
  String.intercalate " " l

/-! ### Static tables (`_initialize_*` methods) -/

/-- One category of `medical_knowledge`. -/
structure MedCategory where
  conditions : List String
  symptoms : List String
  severity_factors : List String
deriving DecidableEq

/-- `_initialize_medical_knowledge`, as an association list in the
declaration (= Python dict insertion) order. -/
def medical_knowledge : List (String × MedCategory) :=
  [ ("respiratory",
      { conditions := ["Common Cold", "Flu", "Bronchitis", "Pneumonia", "Asthma"]
        symptoms := ["cough", "sore throat", "runny nose", "congestion",
                     "shortness of breath", "wheezing"]
        severity_factors := ["fever", "chest pain", "difficulty breathing"] }),
    ("gastrointestinal",
      { conditions := ["Food Poisoning", "Gastritis", "Gastroenteritis",
                       "Irritable Bowel Syndrome"]
        symptoms := ["nausea", "vomiting", "diarrhea", "abdominal pain",
                     "bloating", "loss of appetite"]
        severity_factors := ["severe pain", "blood in stool", "dehydration"] }),
    ("neurological",
      { conditions := ["Migraine", "Tension Headache", "Cluster Headache", "Concussion"]
        symptoms := ["headache", "dizziness", "nausea", "sensitivity to light", "confusion"]
        severity_factors := ["severe pain", "loss of consciousness", "numbness"] }),
    ("cardiovascular",
      { conditions := ["Hypertension", "Angina", "Heart Attack", "Arrhythmia"]
        symptoms := ["chest pain", "shortness of breath", "fatigue", "dizziness",
                     "irregular heartbeat"]
        severity_factors := ["severe chest pain", "pain radiating to arm", "sweating"] }),
    ("musculoskeletal",
      { conditions := ["Sprain", "Strain", "Arthritis", "Fracture", "Muscle Pain"]
        symptoms := ["pain", "swelling", "stiffness", "limited range of motion", "bruising"]
        severity_factors := ["severe pain", "deformity", "inability to move"] }),
    ("dermatological",
      { conditions := ["Rash", "Eczema", "Psoriasis", "Allergic Reaction", "Infection"]
        symptoms := ["rash", "itching", "redness", "swelling", "blisters"]
        severity_factors := ["severe itching", "fever", "spreading rash"] }) ]

/-- The three tiers of `_initialize_emergency_keywords`. -/
structure EmergencyKeywords where
  critical : List String
  urgent : List String
  warning : List String

def emergency_keywords : EmergencyKeywords :=
  { critical := ["chest pain", "difficulty breathing", "severe bleeding",
                 "loss of consciousness", "numbness", "paralysis",
                 "severe head injury", "severe abdominal pain"]
    urgent := ["high fever", "severe pain", "sudden weakness", "vision changes",
               "severe allergic reaction", "poisoning", "suicidal thoughts"]
    warning := ["persistent vomiting", "severe dehydration", "unexplained weight loss",
                "persistent cough", "blood in stool", "severe headache"] }

/-- One entry of `_initialize_condition_database`. -/
structure CondInfo where
  symptoms : List String
  duration : String
  severity : String
  treatments : List String
  when_to_seek_care : String
deriving DecidableEq

/-- `_initialize_condition_database`, in declaration order. -/
def condition_database : List (String × CondInfo) :=
  [ ("Common Cold",
      { symptoms := ["runny nose", "congestion", "sneezing", "sore throat", "cough"]
        duration := "3-7 days"
        severity := "mild"
        treatments := ["rest", "fluids", "over-the-counter medications"]
        when_to_seek_care := "if symptoms persist beyond 10 days or worsen" }),
    ("Influenza",
      { symptoms := ["fever", "body aches", "fatigue", "headache", "cough", "sore throat"]
        duration := "1-2 weeks"
        severity := "moderate"
        treatments := ["rest", "fluids", "antiviral medications if prescribed"]
        when_to_seek_care := "if high fever, difficulty breathing, or severe symptoms" }),
    ("Migraine",
      { symptoms := ["severe headache", "nausea", "sensitivity to light", "aura"]
        duration := "4-72 hours"
        severity := "moderate to severe"
        treatments := ["pain medications", "rest in dark room", "avoid triggers"]
        when_to_seek_care := "if headache is worst ever, with fever or confusion" }),
    ("Gastroenteritis",
      { symptoms := ["nausea", "vomiting", "diarrhea", "abdominal cramps", "fever"]
        duration := "1-3 days"
        severity := "mild to moderate"
        treatments := ["rest", "clear fluids", "bland diet", "rehydration"]
        when_to_seek_care := "if severe dehydration, blood in stool, or persistent vomiting" }) ]

/-! ### Emergency classifier (`check_emergency_symptoms`) -/

/-- Result dictionary of `check_emergency_symptoms`. -/
structure EmergencyResult where
  is_emergency : Bool
  urgency_level : String
  warning_signs : List String
  recommendation : String
deriving DecidableEq

/-- `check_emergency_symptoms`.  The three `for` loops are translated as
left folds over the keyword lists, carrying the
`(emergency_found, urgency_level, warning_signs)` state exactly as the
Python code mutates it. -/
def check_emergency_symptoms (symptoms : String) : EmergencyResult :=
  let symptoms_lower := pyLower symptoms
  let st0 : Bool × String × List String := (false, "low", [])
  let st1 := emergency_keywords.critical.foldl
    (fun st kw => if strIn kw symptoms_lower then
        (true, "critical", st.2.2 ++ ["Critical: " ++ kw]) else st) st0
  let st2 := if !st1.1 then
      emergency_keywords.urgent.foldl
        (fun st kw => if strIn kw symptoms_lower then
            (true, "urgent", st.2.2 ++ ["Urgent: " ++ kw]) else st) st1
    else st1
  let warning_signs := emergency_keywords.warning.foldl
    (fun ws kw => if strIn kw symptoms_lower then ws ++ ["Warning: " ++ kw] else ws) st2.2.2
  let recommendation :=
    if st2.2.1 = "critical" then
      "Call emergency services immediately or go to nearest emergency room"
    else if st2.2.1 = "urgent" then "Seek medical attention within 24 hours"
    else "Monitor symptoms and seek care if they worsen"
  ⟨st2.1, st2.2.1, warning_signs, recommendation⟩

/-- The keywords of one tier matching the (lowered) text, in declared order. -/
def tierMatches (lower : String) (kws : List String) : List String :=
  kws.filter (fun kw => strIn kw lower)

/-- The `"<Tier>: <phrase>"` entries contributed by one tier; `pre` is the
tier tag together with the separator, e.g. `"Critical: "`. -/
def tierSigns (pre lower : String) (kws : List String) : List String :=
  (tierMatches lower kws).map (fun kw => pre ++ kw)

/-! ### Text normalizer (`_normalize_symptoms`, `_is_symptom_word`) -/

/-- A `\w` character of the tokenizing regex `\b\w+\b` (inputs are ASCII). -/
def isWordChar (c : Char) : Bool :=
  c.isAlphanum || c = '_'

/-- Helper for `pyFindWords`: scans the characters, accumulating the current
word reversed. -/
def wordsAux : List Char → List Char → List String
  | [], cur => if cur.isEmpty then [] else [String.mk cur.reverse]
  | c :: rest, cur =>
    if isWordChar c then wordsAux rest (c :: cur)
    else if cur.isEmpty then wordsAux rest []
    else String.mk cur.reverse :: wordsAux rest []

/-- Python `re.findall(r'\b\w+\b', s)`: the maximal runs of word characters. -/
def pyFindWords (s : String) : List String :=
  wordsAux s.data []

/-- The stop-word set of `_normalize_symptoms` (membership is all that the
code uses, so a list models the Python set). -/
def stop_words : List String :=
  ["the", "a", "an", "and", "or", "but", "in", "on", "at", "to", "for", "of", "with", "by"]

/-- The cleaned word list of `_normalize_symptoms`: stop words and words of
length at most 2 dropped. -/
def cleanedWords (s : String) : List String :=
  (pyFindWords s).filter (fun w => !stop_words.contains (pyLower w) && 2 < w.length)

/-- `_is_symptom_word`: indicator substrings of symptom-trigger tokens. -/
def symptom_indicators : List String :=
  ["pain", "ache", "fever", "cough", "sneeze", "rash", "swell", "nausea",
   "vomit", "diarrhea", "headache", "dizziness", "fatigue", "weakness"]

def is_symptom_word (word : String) : Bool :=
  symptom_indicators.any (fun ind => strIn ind (pyLower word))

/-- The grouping loop of `_normalize_symptoms`, carrying `symptom_groups`
and `current_group` exactly as the Python loop mutates them (including the
final flush of a non-empty `current_group`). -/
def groupLoop : List String → List String → List String → List String
  | groups, current, [] => if current.isEmpty then groups else groups ++ [joinSpace current]
  | groups, current, w :: ws =>
    if is_symptom_word w then
      groupLoop (if current.isEmpty then groups else groups ++ [joinSpace current]) [w] ws
    else groupLoop groups (current ++ [w]) ws

/-- `_normalize_symptoms` (its caller passes the already lower-cased text). -/
def normalize_symptoms (symptoms : String) : List String :=
  let cleaned := cleanedWords symptoms
  let groups := groupLoop [] [] cleaned
  if groups.isEmpty then cleaned else groups

/-! ### Condition scorer (`_identify_conditions`)

Python float scores are sums of `1.0` and `0.5`, which binary floating
point represents exactly, so `ℚ` models them faithfully. -/

/-- The per-condition score accumulation of `_identify_conditions`: `+1` for
an exact known-symptom match, `+0.5` for every known symptom related to the
phrase by substring in either direction. -/
def scoreLoop (knownSymptoms : List String) (phrases : List String) : ℚ :=
  phrases.foldl (fun score symptom =>
    knownSymptoms.foldl
      (fun sc known => if strIn symptom known || strIn known symptom then sc + 1/2 else sc)
      (if knownSymptoms.contains symptom then score + 1 else score)) 0

/-- The score the code computes for one `(category, condition)` pair.  The
`condition` argument mirrors the inner loop variable of the source, which
the score computation never reads. -/
def conditionScore (data : MedCategory) (condition : String) (phrases : List String) : ℚ :=
  scoreLoop data.symptoms phrases

/-- The `symptom_scores` dictionary of `_identify_conditions`, as an
association list in insertion order (all condition names in the knowledge
base are distinct, so dictionary insertion is a plain append). -/
def conditionScores (phrases : List String) : List (String × ℚ) :=
  medical_knowledge.foldl (fun acc cat =>
    cat.2.conditions.foldl (fun acc condition =>
      if 0 < conditionScore cat.2 condition phrases then
        acc ++ [(condition, conditionScore cat.2 condition phrases)]
      else acc) acc) []

/-- The descending-by-score order used by `sorted(..., reverse=True)`. -/
def scoreGE (a b : String × ℚ) : Prop :=
  b.2 ≤ a.2

instance : DecidableRel scoreGE :=
  fun a b => (inferInstance : Decidable (b.2 ≤ a.2))

instance : IsTotal (String × ℚ) scoreGE :=
  ⟨fun a b => le_total b.2 a.2⟩

instance : IsTrans (String × ℚ) scoreGE :=
  ⟨fun _ _ _ hab hbc => le_trans hbc hab⟩

/-- `sorted_conditions`: Python applies a stable descending sort by score;
insertion sort with `scoreGE` is that stable sort. -/
def sortedScores (phrases : List String) : List (String × ℚ) :=
  List.insertionSort scoreGE (conditionScores phrases)

/-- `_identify_conditions`: keep the sorted candidates scoring at least 1,
then truncate to the first 5.  `age` and `gender` are accepted and unused,
as in the source. -/
def identify_conditions (phrases : List String) (age : Int) (gender : String) : List String :=
  (((sortedScores phrases).filter (fun p => decide ((1 : ℚ) ≤ p.2))).map Prod.fst).take 5

/-- Spec-side formula for the score contribution of one phrase. -/
def phraseScoreSpec (known : List String) (p : String) : ℚ :=
  (if known.contains p then 1 else 0)
    + (known.countP (fun k => strIn p k || strIn k p) : ℚ) * (1/2)

/-! ### Recommendation synthesizer (`_generate_recommendations`) -/

/-- The five recommendation lists. -/
structure Recommendations where
  actions : List String
  emergency_warnings : List String
  self_care : List String
  when_to_seek_care : List String
  follow_up : List String

/-- Python `condition in self.condition_database` plus the lookup. -/
def lookupCondition (name : String) : Option CondInfo :=
  (condition_database.find? (fun p => p.1 == name)).map Prod.snd

/-- `_generate_recommendations`.  The final Python `list(set(...))` per list
returns the distinct elements in unspecified order; it is modelled by
`List.dedup`, which the duplicate-freeness claim is insensitive to. -/
def generate_recommendations (conditions : List String) (severity duration : String)
    (emergency_check : EmergencyResult) : Recommendations :=
  let emergency_warnings :=
    if emergency_check.is_emergency then
      ["⚠️ SEEK IMMEDIATE MEDICAL ATTENTION - These symptoms may require emergency care"]
    else []
  let actions1 :=
    if emergency_check.is_emergency then
      ["Call emergency services or go to nearest emergency room"]
    else []
  let condLists := conditions.foldl (fun acc c =>
    match lookupCondition c with
    | some info => (acc.1 ++ info.treatments, acc.2 ++ [info.when_to_seek_care])
    | none => acc) (([], []) : List String × List String)
  let actions2 := actions1 ++
    (if severity = "severe" then ["Consider seeking medical attention today"]
     else if severity = "moderate"
         ∧ duration ∈ ["4_7_days", "1_2_weeks", "more_than_2_weeks"] then
       ["Schedule an appointment with your healthcare provider"]
     else [])
  let actions3 := actions2 ++
    (if duration = "more_than_2_weeks" then
       ["Persistent symptoms may require medical evaluation"]
     else [])
  let self_care2 := condLists.1 ++
    ["Get adequate rest", "Stay hydrated", "Monitor symptoms for changes",
     "Avoid known triggers or irritants"]
  let follow_up := ["Monitor symptoms and seek care if they worsen"] ++
    (match conditions with
     | [] => []
     | c :: _ => ["Follow up with healthcare provider about " ++ c])
  { actions := actions3.dedup
    emergency_warnings := emergency_warnings.dedup
    self_care := self_care2.dedup
    when_to_seek_care := condLists.2.dedup
    follow_up := follow_up.dedup }

/-! ### Summary, confidence, risk -/

/-- `_create_summary`. -/
def create_summary (conditions : List String) (severity : String)
    (emergency_check : EmergencyResult) : String :=
  if emergency_check.is_emergency then "🚨 EMERGENCY: Immediate medical attention required"
  else if conditions.isEmpty then
    "Symptoms analyzed but no specific conditions identified. Consider consulting a healthcare provider."
  else
    let condition_text :=
      match conditions with
      | [c] => c
      | cs => String.intercalate ", " cs.dropLast ++ " and " ++ cs.getLastD ""
    "Analysis suggests possible " ++ condition_text ++ " with "
      ++ pyCapitalize severity ++ " symptoms"

/-- `_calculate_confidence`.  `symptoms` is the raw text; its word count is
Python `len(symptoms.split())`. -/
def calculate_confidence (conditions : List String) (symptoms : String) : String :=
  if conditions.isEmpty then "Low"
  else if 20 < (pySplit symptoms).length ∧ conditions.length ≤ 2 then "High"
  else if 10 < (pySplit symptoms).length ∧ conditions.length ≤ 3 then "Medium"
  else "Low"

/-- `_assess_risk`, with the two `risk_factors` accumulation steps kept
separate as in the source. -/
def assess_risk (age : Int) (severity : String) (emergency_check : EmergencyResult) : String :=
  if emergency_check.is_emergency then "Critical"
  else
    let risk1 : Nat := if age < 5 ∨ 65 < age then 1 else 0
    let risk2 : Nat := risk1 + (if severity = "severe" then 2
                                else if severity = "moderate" then 1 else 0)
    if 3 ≤ risk2 then "High"
    else if 1 ≤ risk2 then "Medium"
    else "Low"

/-- Spec-side risk-point formula of C5. -/
def riskPoints (age : Int) (severity : String) : Nat :=
  (if age < 5 ∨ 65 < age then 1 else 0)
    + (if severity = "severe" then 2 else if severity = "moderate" then 1 else 0)

/-! ### Top-level analysis (`analyze_symptoms`) -/

/-- The result dictionary of `analyze_symptoms`. -/
structure AnalysisResults where
  summary : String
  possible_conditions : List String
  recommended_actions : List String
  emergency_warnings : List String
  self_care_tips : List String
  when_to_seek_care : List String
  confidence_level : String
  risk_assessment : String
  follow_up_recommendations : List String

/-- `analyze_symptoms`.  The source also computes
`_analyze_symptom_patterns`, whose result is never used in the returned
dictionary, so it is omitted here. -/
def analyze_symptoms (age : Int) (gender symptoms duration severity : String) :
    AnalysisResults :=
  let normalized_symptoms := normalize_symptoms (pyLower symptoms)
  let emergency_check := check_emergency_symptoms symptoms
  let possible_conditions := identify_conditions normalized_symptoms age gender
  let recommendations := generate_recommendations possible_conditions severity duration
    emergency_check
  { summary := create_summary possible_conditions severity emergency_check
    possible_conditions := possible_conditions
    recommended_actions := recommendations.actions
    emergency_warnings := recommendations.emergency_warnings
    self_care_tips := recommendations.self_care
    when_to_seek_care := recommendations.when_to_seek_care
    confidence_level := calculate_confidence possible_conditions symptoms
    risk_assessment := assess_risk age severity emergency_check
    follow_up_recommendations := recommendations.follow_up }

/-! ### `get_common_symptoms` and `search_conditions` -/

/-- The `all_symptoms` accumulation of `get_common_symptoms`. -/
def all_symptoms : List String :=
  medical_knowledge.foldl (fun acc cat => acc ++ cat.2.symptoms) []

/-- `get_common_symptoms`: Python `sorted(list(set(all_symptoms)))`; the set
round-trip is deduplication and `sorted` produces the ascending order, which
on the deduplicated list is the stable insertion sort. -/
def get_common_symptoms : List String :=
  List.insertionSort (· ≤ ·) all_symptoms.dedup

/-- One result dictionary of `search_conditions`; the keys that only one of
the two loops writes are `Option`-valued. -/
structure SearchEntry where
  name : String
  symptoms : List String
  severity : Option String
  category : Option String
deriving DecidableEq

/-- The result entry built from a condition-profile row. -/
def mkProfileEntry (p : String × CondInfo) : SearchEntry :=
  ⟨p.1, p.2.symptoms, some p.2.severity, none⟩

/-- The result entry built from a knowledge-base category row. -/
def mkCatEntry (cat : String × MedCategory) (c : String) : SearchEntry :=
  ⟨c, cat.2.symptoms, none, some cat.1⟩

/-- The uncapped result list of `search_conditions`: the two `for` loops in
order, translated as folds appending matches. -/
def search_conditions_all (query : String) : List SearchEntry :=
  let query_lower := pyLower query
  let results1 := condition_database.foldl (fun acc p =>
    if strIn query_lower (pyLower p.1) then acc ++ [mkProfileEntry p] else acc) []
  medical_knowledge.foldl (fun acc cat =>
    cat.2.conditions.foldl (fun acc c =>
      if strIn query_lower (pyLower c) then acc ++ [mkCatEntry cat c] else acc) acc) results1

/-- `search_conditions`, with the final `[:10]` cap. -/
def search_conditions (query : String) : List SearchEntry :=
  (search_conditions_all query).take 10

/-- Spec-side view of the first search loop: all matching profile rows in
declared order. -/
def profilePart (ql : String) : List SearchEntry :=
  (condition_database.filter (fun p => strIn ql (pyLower p.1))).map mkProfileEntry

/-- Spec-side view of the second search loop: all matching category-table
conditions in category, then declaration, order. -/
def catPart (ql : String) : List SearchEntry :=
  (medical_knowledge.map (fun cat =>
    (cat.2.conditions.filter (fun c => strIn ql (pyLower c))).map (mkCatEntry cat))).flatten

/-! ### Proofs -/

theorem tierFold (lower level pre : String) (kws : List String) :
    ∀ st : Bool × String × List String,
      kws.foldl (fun st kw => if strIn kw lower then
          (true, level, st.2.2 ++ [pre ++ kw]) else st) st
        = (st.1 || kws.any (fun kw => strIn kw lower),
           if kws.any (fun kw => strIn kw lower) then level else st.2.1,
           st.2.2 ++ tierSigns pre lower kws) := by
  induction kws with
  | nil => intro st; simp [tierSigns, tierMatches]
  | cons k ks ih =>
    intro st
    by_cases h : strIn k lower
    · simp only [List.foldl_cons, h, if_true, ih, List.any_cons, Bool.true_or,
        Bool.or_true, tierSigns, tierMatches, List.filter_cons, List.map_cons]
      cases hks : ks.any (fun kw => strIn kw lower) <;>
        simp [hks, List.append_assoc]
    · simp only [List.foldl_cons, h, if_false, ih, List.any_cons, Bool.false_or,
        tierSigns, tierMatches, List.filter_cons]
      simp [h]

theorem warnFold (lower pre : String) (kws : List String) :
    ∀ ws : List String,
      kws.foldl (fun ws kw => if strIn kw lower then ws ++ [pre ++ kw] else ws) ws
        = ws ++ tierSigns pre lower kws := by
  induction kws with
  | nil => intro ws; simp [tierSigns, tierMatches]
  | cons k ks ih =>
    intro ws
    by_cases h : strIn k lower <;>
      simp [h, ih, tierSigns, tierMatches, List.filter_cons, List.append_assoc]

/-- C1: any critical-tier substring match forces `urgency_level = "critical"`
and `is_emergency = true`; the urgent tier only contributes when no critical
phrase matched; the warning tier always contributes; and `warning_signs` is
the critical entries, then the urgent entries, then the warning entries,
each tier in declared order. -/
theorem check_emergency_symptoms_C1 (symptoms : String) :
    (check_emergency_symptoms symptoms).warning_signs
      = tierSigns "Critical: " (pyLower symptoms) emergency_keywords.critical
        ++ (if emergency_keywords.critical.any (fun kw => strIn kw (pyLower symptoms)) then
              ([] : List String)
            else tierSigns "Urgent: " (pyLower symptoms) emergency_keywords.urgent)
        ++ tierSigns "Warning: " (pyLower symptoms) emergency_keywords.warning
    ∧ (emergency_keywords.critical.any (fun kw => strIn kw (pyLower symptoms)) = true
        ↔ (check_emergency_symptoms symptoms).urgency_level = "critical"
          ∧ (check_emergency_symptoms symptoms).is_emergency = true) := by
  unfold check_emergency_symptoms
  simp only [tierFold, warnFold]
  cases hc : emergency_keywords.critical.any (fun kw => strIn kw (pyLower symptoms)) <;>
    cases hu : emergency_keywords.urgent.any (fun kw => strIn kw (pyLower symptoms)) <;>
      simp [hc, hu, List.append_assoc]

theorem groupLoop_no_trigger (ws : List String) (hws : ∀ w ∈ ws, is_symptom_word w = false) :
    ∀ groups current, groupLoop groups current ws
      = if (current ++ ws).isEmpty then groups else groups ++ [joinSpace (current ++ ws)] := by
  induction ws with
  | nil => intro groups current; simp [groupLoop]
  | cons w ws ih =>
    intro groups current
    have hw : is_symptom_word w = false := hws w (List.mem_cons_self w ws)
    have hrest : ∀ u ∈ ws, is_symptom_word u = false :=
      fun u hu => hws u (List.mem_cons_of_mem w hu)
    simp only [groupLoop, hw, Bool.false_eq_true, if_false, ih hrest]
    have : current ++ [w] ++ ws = current ++ (w :: ws) := by
      simp [List.append_assoc]
    rw [this]

/-- C4 fails on the code: for the all-lower-case input `"tired sleepy"` no
cleaned token is a symptom trigger, the cleaned token list is
`["tired", "sleepy"]`, yet `_normalize_symptoms` does not return that list
(it returns the single joined phrase `["tired sleepy"]`). -/
theorem normalize_symptoms_C4_counterexample :
    ((cleanedWords "tired sleepy").all (fun w => !is_symptom_word w)) = true
    ∧ cleanedWords "tired sleepy" = ["tired", "sleepy"]
    ∧ normalize_symptoms "tired sleepy" ≠ ["tired", "sleepy"]
    ∧ normalize_symptoms "tired sleepy" = ["tired sleepy"] := by
  refine ⟨by decide, by decide, by decide, by decide⟩

/-- C4 (amended): when no cleaned token is a symptom trigger and at least
one cleaned token exists, `_normalize_symptoms` returns the single phrase
joining the full cleaned token list with spaces (a non-empty result), not
one phrase per token. -/
theorem normalize_symptoms_C4_amended (symptoms : String)
    (h : ∀ w ∈ cleanedWords symptoms, is_symptom_word w = false)
    (hne : cleanedWords symptoms ≠ []) :
    normalize_symptoms symptoms = [joinSpace (cleanedWords symptoms)] := by
  have hne2 : (cleanedWords symptoms).isEmpty = false := by
    cases hcl : cleanedWords symptoms with
    | nil => exact absurd hcl hne
    | cons a l => rfl
  unfold normalize_symptoms
  simp [groupLoop_no_trigger (cleanedWords symptoms) h, hne2]

/-- Concrete instance of the amended C4 theorem. -/
theorem normalize_symptoms_C4_amended_witness :
    normalize_symptoms "tired sleepy" = [joinSpace (cleanedWords "tired sleepy")] :=
  normalize_symptoms_C4_amended "tired sleepy" (by decide) (by decide)

theorem innerFold (known : List String) (p : String) :
    ∀ sc : ℚ,
      known.foldl (fun sc k => if strIn p k || strIn k p then sc + 1/2 else sc) sc
        = sc + (known.countP (fun k => strIn p k || strIn k p) : ℚ) * (1/2) := by
  induction known with
  | nil => intro sc; simp
  | cons k ks ih =>
    intro sc
    by_cases h : (strIn p k || strIn k p) = true
    · simp only [List.foldl_cons, h, if_true, ih, List.countP_cons]
      push_cast
      ring
    · simp only [List.foldl_cons, h, Bool.false_eq_true, if_false, ih, List.countP_cons]
      norm_num

/-- A left fold whose step adds a per-element amount is the sum of those
amounts. -/
theorem foldl_shift {f : String → ℚ} {step : ℚ → String → ℚ}
    (hstep : ∀ sc p, step sc p = sc + f p) :
    ∀ (l : List String) (sc : ℚ), l.foldl step sc = sc + (l.map f).sum := by
  intro l
  induction l with
  | nil => intro sc; simp
  | cons p ps ih =>
    intro sc
    rw [List.foldl_cons, hstep, ih, List.map_cons, List.sum_cons]
    ring

/-- One pass of the outer scoring loop equals the spec-side per-phrase
contribution. -/
theorem scoreStep (known : List String) (sc : ℚ) (p : String) :
    known.foldl (fun sc k => if strIn p k || strIn k p then sc + 1/2 else sc)
      (if known.contains p then sc + 1 else sc) = sc + phraseScoreSpec known p := by
  rw [innerFold]
  by_cases h : p ∈ known <;> simp [h, phraseScoreSpec] <;> ring

/-- C3: across all normalized phrases, the accumulated condition score is
the sum, over the phrases, of `1` for an exact known-symptom match plus
`0.5` for every known symptom phrase that substring-matches the phrase in
either direction (so a single phrase can contribute several `0.5`
increments, and an exact match also earns the `0.5` of the equal phrase). -/
theorem scoreLoop_C3 (data : MedCategory) (condition : String) (phrases : List String) :
    conditionScore data condition phrases
      = (phrases.map (phraseScoreSpec data.symptoms)).sum := by
  have h := foldl_shift (fun sc p => scoreStep data.symptoms sc p) phrases 0
  simpa [conditionScore, scoreLoop] using h

/-- C9: two conditions declared in the same knowledge-base category always
receive exactly equal scores, because the score computation reads only the
category symptom list, never the condition name. -/
theorem conditionScore_C9 (phrases : List String) (name : String) (data : MedCategory)
    (c₁ c₂ : String) (hcat : (name, data) ∈ medical_knowledge)
    (h₁ : c₁ ∈ data.conditions) (h₂ : c₂ ∈ data.conditions) :
    conditionScore data c₁ phrases = conditionScore data c₂ phrases :=
  rfl

/-- Concrete instance of the C9 theorem: Common Cold and Flu (both
respiratory) score identically on any phrase list, here `["cough"]`. -/
theorem conditionScore_C9_witness :
    conditionScore
        { conditions := ["Common Cold", "Flu", "Bronchitis", "Pneumonia", "Asthma"]
          symptoms := ["cough", "sore throat", "runny nose", "congestion",
                       "shortness of breath", "wheezing"]
          severity_factors := ["fever", "chest pain", "difficulty breathing"] }
        "Common Cold" ["cough"]
      = conditionScore
          { conditions := ["Common Cold", "Flu", "Bronchitis", "Pneumonia", "Asthma"]
            symptoms := ["cough", "sore throat", "runny nose", "congestion",
                         "shortness of breath", "wheezing"]
            severity_factors := ["fever", "chest pain", "difficulty breathing"] }
          "Flu" ["cough"] :=
  conditionScore_C9 ["cough"] "respiratory"
    { conditions := ["Common Cold", "Flu", "Bronchitis", "Pneumonia", "Asthma"]
      symptoms := ["cough", "sore throat", "runny nose", "congestion",
                   "shortness of breath", "wheezing"]
      severity_factors := ["fever", "chest pain", "difficulty breathing"] }
    "Common Cold" "Flu" (by decide) (by decide) (by decide)

/-! ### Theorems for the remaining claims -/

theorem condsFold_pos (phrases : List String) (data : MedCategory) :
    ∀ (conds : List String) (acc : List (String × ℚ)),
      (∀ p ∈ acc, 0 < p.2) →
      ∀ p ∈ conds.foldl (fun acc condition =>
          if 0 < conditionScore data condition phrases then
            acc ++ [(condition, conditionScore data condition phrases)]
          else acc) acc, 0 < p.2 := by
  intro conds
  induction conds with
  | nil => intro acc h; exact h
  | cons c cs ih =>
    intro acc h
    simp only [List.foldl_cons]
    by_cases hc : 0 < conditionScore data c phrases
    · rw [if_pos hc]
      apply ih
      intro p hp
      rcases List.mem_append.mp hp with h1 | h2
      · exact h p h1
      · have : p = (c, conditionScore data c phrases) := by simpa using h2
        rw [this]
        exact hc
    · rw [if_neg hc]
      exact ih acc h

theorem conditionScores_pos (phrases : List String) :
    ∀ p ∈ conditionScores phrases, 0 < p.2 := by
  unfold conditionScores
  suffices h : ∀ (cats : List (String × MedCategory)) (acc : List (String × ℚ)),
      (∀ p ∈ acc, 0 < p.2) →
      ∀ p ∈ cats.foldl (fun acc cat =>
          cat.2.conditions.foldl (fun acc condition =>
            if 0 < conditionScore cat.2 condition phrases then
              acc ++ [(condition, conditionScore cat.2 condition phrases)]
            else acc) acc) acc, 0 < p.2 by
    exact h medical_knowledge [] (by simp)
  intro cats
  induction cats with
  | nil => intro acc h; exact h
  | cons cat cs ih =>
    intro acc h
    simp only [List.foldl_cons]
    exact ih _ (condsFold_pos phrases cat.2 cat.2.conditions acc h)

theorem filter_score_orderedInsert (q : ℚ) (x : String × ℚ) :
    ∀ l : List (String × ℚ),
      (List.orderedInsert scoreGE x l).filter (fun p => decide (p.2 = q))
        = if x.2 = q then x :: l.filter (fun p => decide (p.2 = q))
          else l.filter (fun p => decide (p.2 = q)) := by
  intro l
  induction l with
  | nil => by_cases hx : x.2 = q <;> simp [hx, List.orderedInsert]
  | cons y ys ih =>
    by_cases hr : scoreGE x y
    · rw [List.orderedInsert, if_pos hr]
      by_cases hx : x.2 = q <;> simp [hx, List.filter_cons]
    · rw [List.orderedInsert, if_neg hr]
      have hy : x.2 < y.2 := not_le.mp hr
      rw [List.filter_cons, List.filter_cons]
      by_cases hyq : y.2 = q
      · have hxq : ¬x.2 = q := by rw [← hyq]; exact ne_of_lt hy
        simp [hyq, hxq, ih]
      · by_cases hxq : x.2 = q <;> simp [hyq, hxq, ih]

theorem filter_score_insertionSort (q : ℚ) :
    ∀ l : List (String × ℚ),
      (List.insertionSort scoreGE l).filter (fun p => decide (p.2 = q))
        = l.filter (fun p => decide (p.2 = q)) := by
  intro l
  induction l with
  | nil => rfl
  | cons x xs ih =>
    rw [List.insertionSort, filter_score_orderedInsert, ih, List.filter_cons]
    by_cases hx : x.2 = q <;> simp [hx]

/-- C2: `_identify_conditions` discards zero scores (every recorded score is
positive), sorts descending by score with ties kept in knowledge-base
declaration order (a stable sort: filtering any fixed score out of the
sorted list returns those entries in declaration order), keeps exactly the
sorted candidates with score at least 1, truncates to 5, and every returned
condition indeed has a recorded score of at least 1; hence `analyze` returns
at most 5 conditions. -/
theorem identify_conditions_C2 (phrases : List String) (age : Int) (gender : String) :
    (identify_conditions phrases age gender).length ≤ 5
    ∧ List.Sorted scoreGE (sortedScores phrases)
    ∧ identify_conditions phrases age gender
        = (((sortedScores phrases).filter (fun p => decide ((1 : ℚ) ≤ p.2))).map
            Prod.fst).take 5
    ∧ (∀ p ∈ conditionScores phrases, 0 < p.2)
    ∧ (∀ q : ℚ, (sortedScores phrases).filter (fun p => decide (p.2 = q))
          = (conditionScores phrases).filter (fun p => decide (p.2 = q)))
    ∧ (∀ c ∈ identify_conditions phrases age gender,
          ∃ s : ℚ, (c, s) ∈ conditionScores phrases ∧ 1 ≤ s)
    ∧ ∀ symptoms duration severity : String,
        (analyze_symptoms age gender symptoms duration severity).possible_conditions.length
          ≤ 5 := by
  refine ⟨?_, ?_, rfl, conditionScores_pos phrases, ?_, ?_, ?_⟩
  · exact List.length_take_le 5 _
  · exact List.sorted_insertionSort scoreGE (conditionScores phrases)
  · intro q
    exact filter_score_insertionSort q (conditionScores phrases)
  · intro c hc
    have hc2 := List.mem_of_mem_take hc
    rcases List.mem_map.mp hc2 with ⟨p, hp, rfl⟩
    have hf := List.mem_filter.mp hp
    have hmem : p ∈ conditionScores phrases :=
      (List.perm_insertionSort scoreGE (conditionScores phrases)).mem_iff.mp hf.1
    exact ⟨p.2, by simpa using hmem, of_decide_eq_true hf.2⟩
  · intro symptoms duration severity
    exact List.length_take_le 5 _

/-- Concrete instance of the C2 theorem. -/
theorem identify_conditions_C2_witness :
    (identify_conditions ["cough"] 30 "male").length ≤ 5 :=
  (identify_conditions_C2 ["cough"] 30 "male").1

/-- C5: `_assess_risk` is `"Critical"` exactly on emergencies; otherwise it
maps the risk points to `"High"` (at least 3), `"Medium"` (at least 1) and
`"Low"` (zero). -/
theorem assess_risk_C5 (age : Int) (severity : String) (ec : EmergencyResult) :
    (assess_risk age severity ec = "Critical" ↔ ec.is_emergency = true)
    ∧ assess_risk age severity ec
        = (if ec.is_emergency then "Critical"
           else if 3 ≤ riskPoints age severity then "High"
           else if 1 ≤ riskPoints age severity then "Medium"
           else "Low") := by
  unfold assess_risk riskPoints
  cases hec : ec.is_emergency <;>
    by_cases h3 : 3 ≤ (if age < 5 ∨ 65 < age then 1 else 0)
        + (if severity = "severe" then 2 else if severity = "moderate" then 1 else 0) <;>
      by_cases h1 : 1 ≤ (if age < 5 ∨ 65 < age then 1 else 0)
          + (if severity = "severe" then 2 else if severity = "moderate" then 1 else 0) <;>
        simp [hec, h3, h1]

/-- Concrete instance of the C5 theorem. -/
theorem assess_risk_C5_witness :
    assess_risk 30 "mild" ⟨false, "low", [], ""⟩
      = (if (⟨false, "low", [], ""⟩ : EmergencyResult).is_emergency then "Critical"
         else if 3 ≤ riskPoints 30 "mild" then "High"
         else if 1 ≤ riskPoints 30 "mild" then "Medium"
         else "Low") :=
  (assess_risk_C5 30 "mild" ⟨false, "low", [], ""⟩).2

/-- C6: `_calculate_confidence` is `"Low"` whenever no condition was found,
and otherwise graded by the raw-text whitespace word count and the
condition count. -/
theorem calculate_confidence_C6 (conditions : List String) (symptoms : String) :
    calculate_confidence conditions symptoms
      = (if conditions = [] then "Low"
         else if 20 < (pySplit symptoms).length ∧ conditions.length ≤ 2 then "High"
         else if 10 < (pySplit symptoms).length ∧ conditions.length ≤ 3 then "Medium"
         else "Low") := by
  unfold calculate_confidence
  cases conditions <;> simp

/-- Concrete instance of the C6 theorem. -/
theorem calculate_confidence_C6_witness :
    calculate_confidence [] "headache and nausea"
      = (if ([] : List String) = [] then "Low"
         else if 20 < (pySplit "headache and nausea").length ∧ ([] : List String).length ≤ 2
           then "High"
         else if 10 < (pySplit "headache and nausea").length ∧ ([] : List String).length ≤ 3
           then "Medium"
         else "Low") :=
  calculate_confidence_C6 [] "headache and nausea"

/-- C7: each of the five recommendation lists is duplicate-free when
returned. -/
theorem generate_recommendations_C7 (conditions : List String) (severity duration : String)
    (ec : EmergencyResult) :
    (generate_recommendations conditions severity duration ec).actions.Nodup
    ∧ (generate_recommendations conditions severity duration ec).emergency_warnings.Nodup
    ∧ (generate_recommendations conditions severity duration ec).self_care.Nodup
    ∧ (generate_recommendations conditions severity duration ec).when_to_seek_care.Nodup
    ∧ (generate_recommendations conditions severity duration ec).follow_up.Nodup :=
  ⟨List.nodup_dedup _, List.nodup_dedup _, List.nodup_dedup _,
   List.nodup_dedup _, List.nodup_dedup _⟩

/-- Concrete instance of the C7 theorem. -/
theorem generate_recommendations_C7_witness :
    (generate_recommendations ["Common Cold"] "mild" "1_3_days"
      ⟨false, "low", [], ""⟩).actions.Nodup :=
  (generate_recommendations_C7 ["Common Cold"] "mild" "1_3_days" ⟨false, "low", [], ""⟩).1

/-- C8: `get_common_symptoms` is duplicate-free, sorted in the
lexicographic string order, and contains exactly the symptom phrases that
occur in some knowledge-base category. -/
theorem get_common_symptoms_C8 :
    get_common_symptoms.Nodup
    ∧ List.Sorted (· ≤ ·) get_common_symptoms
    ∧ ∀ s : String, s ∈ get_common_symptoms ↔ s ∈ all_symptoms := by
  refine ⟨?_, ?_, ?_⟩
  · exact (List.perm_insertionSort _ _).nodup_iff.mpr (List.nodup_dedup _)
  · exact List.sorted_insertionSort _ _
  · intro s
    unfold get_common_symptoms
    rw [List.mem_insertionSort, List.mem_dedup]

theorem searchFold1 (ql : String) :
    ∀ (l : List (String × CondInfo)) (acc : List SearchEntry),
      l.foldl (fun acc p =>
          if strIn ql (pyLower p.1) then acc ++ [mkProfileEntry p] else acc) acc
        = acc ++ (l.filter (fun p => strIn ql (pyLower p.1))).map mkProfileEntry := by
  intro l
  induction l with
  | nil => intro acc; simp
  | cons x xs ih =>
    intro acc
    by_cases h : strIn ql (pyLower x.1) = true <;>
      simp [h, ih, List.filter_cons, List.append_assoc]

theorem searchFold2Inner (ql : String) (cat : String × MedCategory) :
    ∀ (conds : List String) (acc : List SearchEntry),
      conds.foldl (fun acc c =>
          if strIn ql (pyLower c) then acc ++ [mkCatEntry cat c] else acc) acc
        = acc ++ (conds.filter (fun c => strIn ql (pyLower c))).map (mkCatEntry cat) := by
  intro conds
  induction conds with
  | nil => intro acc; simp
  | cons x xs ih =>
    intro acc
    by_cases h : strIn ql (pyLower x) = true <;>
      simp [h, ih, List.filter_cons, List.append_assoc]

theorem searchFold2 (ql : String) :
    ∀ (cats : List (String × MedCategory)) (acc : List SearchEntry),
      cats.foldl (fun acc cat =>
          cat.2.conditions.foldl (fun acc c =>
            if strIn ql (pyLower c) then acc ++ [mkCatEntry cat c] else acc) acc) acc
        = acc ++ (cats.map (fun cat =>
            (cat.2.conditions.filter (fun c => strIn ql (pyLower c))).map
              (mkCatEntry cat))).flatten := by
  intro cats
  induction cats with
  | nil => intro acc; simp
  | cons cat cs ih =>
    intro acc
    rw [List.foldl_cons, ih, searchFold2Inner]
    simp [List.append_assoc]

theorem search_conditions_all_eq (query : String) :
    search_conditions_all query = profilePart (pyLower query) ++ catPart (pyLower query) := by
  unfold search_conditions_all profilePart catPart
  simp only [searchFold1, searchFold2, List.nil_append]

/-- C10 fails on the code: for the query `"n"`, the name `"Migraine"`
matches case-insensitively in both the condition-profile table and the
neurological category, yet `search_conditions` returns only one entry named
`"Migraine"`: ten earlier matches fill the cap and the category-table
duplicate is truncated. -/
theorem search_conditions_C10_counterexample :
    strIn (pyLower "n") (pyLower "Migraine") = true
    ∧ condition_database.any (fun p => p.1 == "Migraine") = true
    ∧ medical_knowledge.any (fun cat => cat.2.conditions.contains "Migraine") = true
    ∧ ((search_conditions "n").filter (fun e => e.name == "Migraine")).length = 1 := by
  refine ⟨by decide, by decide, by decide, by decide⟩

/-- C10 (amended): for every query matching a name present in both tables,
the uncapped result list contains the profile-table entry (with severity)
strictly before the category-table entry (with category) — no cross-table
deduplication is performed; the final cap of 10 may however drop the later
category-table duplicate (as the query `"n"` shows). -/
theorem search_conditions_C10_amended (query name : String) (info : CondInfo)
    (catName : String) (data : MedCategory)
    (h1 : (name, info) ∈ condition_database)
    (h2 : strIn (pyLower query) (pyLower name) = true)
    (h3 : (catName, data) ∈ medical_knowledge)
    (h4 : name ∈ data.conditions) :
    List.Sublist [mkProfileEntry (name, info), mkCatEntry (catName, data) name]
      (search_conditions_all query) := by
  rw [search_conditions_all_eq]
  have e1 : mkProfileEntry (name, info) ∈ profilePart (pyLower query) := by
    unfold profilePart
    exact List.mem_map_of_mem _ (List.mem_filter.mpr ⟨h1, h2⟩)
  have e2 : mkCatEntry (catName, data) name ∈ catPart (pyLower query) := by
    unfold catPart
    apply List.mem_flatten.mpr
    exact ⟨_, List.mem_map_of_mem _ h3, List.mem_map_of_mem _ (List.mem_filter.mpr ⟨h4, h2⟩)⟩
  have s1 := List.singleton_sublist.mpr e1
  have s2 := List.singleton_sublist.mpr e2
  simpa using s1.append s2

/-- Concrete instance of the amended C10 theorem, at query `"migraine"`. -/
theorem search_conditions_C10_amended_witness :
    List.Sublist [mkProfileEntry ("Migraine",
        { symptoms := ["severe headache", "nausea", "sensitivity to light", "aura"]
          duration := "4-72 hours"
          severity := "moderate to severe"
          treatments := ["pain medications", "rest in dark room", "avoid triggers"]
          when_to_seek_care := "if headache is worst ever, with fever or confusion" }),
     mkCatEntry ("neurological",
        { conditions := ["Migraine", "Tension Headache", "Cluster Headache", "Concussion"]
          symptoms := ["headache", "dizziness", "nausea", "sensitivity to light", "confusion"]
          severity_factors := ["severe pain", "loss of consciousness", "numbness"] })
       "Migraine"]
      (search_conditions_all "migraine") :=
  search_conditions_C10_amended "migraine" "Migraine"
    { symptoms := ["severe headache", "nausea", "sensitivity to light", "aura"]
      duration := "4-72 hours"
      severity := "moderate to severe"
      treatments := ["pain medications", "rest in dark room", "avoid triggers"]
      when_to_seek_care := "if headache is worst ever, with fever or confusion" }
    "neurological"
    { conditions := ["Migraine", "Tension Headache", "Cluster Headache", "Concussion"]
      symptoms := ["headache", "dizziness", "nausea", "sensitivity to light", "confusion"]
      severity_factors := ["severe pain", "loss of consciousness", "numbness"] }
    (by decide) (by decide) (by decide) (by decide)

/-- Concrete instance of the C1 theorem. -/
theorem check_emergency_symptoms_C1_witness :
    (check_emergency_symptoms "chest pain").is_emergency = true :=
  ((check_emergency_symptoms_C1 "chest pain").2.mp (by decide)).2

/-- Concrete instance of the C3 theorem. -/
theorem scoreLoop_C3_witness :
    conditionScore
        { conditions := [], symptoms := ["cough"], severity_factors := [] } "X" ["cough"]
      = ((["cough"] : List String).map (phraseScoreSpec ["cough"])).sum :=
  scoreLoop_C3 { conditions := [], symptoms := ["cough"], severity_factors := [] } "X" ["cough"]

end HealthSym
